import Mathlib

/-!
Verification of the vigi Telegram-bot repository (src/database.py, src/bot.py,
src/admin.py) against its natural-language specification.  The Python code is
shallowly embedded: the users table becomes a `List User`, timestamps become
integer seconds, handlers become pure functions from their inputs to the
directory/state/replies they produce, and the external send primitive becomes
a boolean oracle saying whether the send to a given recipient succeeds.
-/

namespace Vigi

/-! ### Data model (src/database.py) -/

/-- A row of the `users` table (database.py lines 48-57): `telegram_id` is the
UNIQUE key, `fullname` and `status` are TEXT, and the two ISO-format timestamp
strings are modelled as integer seconds (ISO round-trips through
`datetime.fromisoformat` to the instant it denotes). -/
structure User where
  telegram_id : Int
  fullname : String
  status : String
  created_at : Int
  updated_at : Int
deriving DecidableEq, Repr

/-- Models the `User.__init__` defaults (database.py lines 11-16): status
defaults to the caller-supplied value and both timestamps default to
`datetime.now()`; the two consecutive `now()` calls are collapsed to the one
instant `now`. -/
def pyUser (tid : Int) (fullname status : String) (now : Int) : User :=
  { telegram_id := tid, fullname := fullname, status := status
  , created_at := now, updated_at := now }

/-- The users table, rows in insertion order.  The UNIQUE constraint on
`telegram_id` is enforced by `create_user` refusing duplicates. -/
abbrev Directory := List User

/-- `Database.create_user` (database.py lines 62-77): the INSERT raises
`IntegrityError` exactly when the UNIQUE `telegram_id` is already present,
caught and reported as `false`; otherwise the row is appended and the call
reports `true`. -/
def create_user (d : Directory) (u : User) : Directory × Bool :=
  if d.any (fun r => r.telegram_id == u.telegram_id) then (d, false)
  else (d ++ [u], true)

/-- `Database.get_user` (database.py lines 79-94): point lookup by
`telegram_id`, `None` when absent. -/
def get_user (d : Directory) (tid : Int) : Option User :=
  d.find? (fun r => r.telegram_id == tid)

/-- `Database.user_exists` (database.py lines 162-164). -/
def user_exists (d : Directory) (tid : Int) : Bool :=
  (get_user d tid).isSome

/-- `Database.update_user` (database.py lines 96-130): with no field supplied
it returns `False` before touching the table; otherwise it runs
`UPDATE users SET <provided fields>, updated_at = now WHERE telegram_id = ?`
and reports `cursor.rowcount > 0`, i.e. whether any row matched. -/
def update_user (d : Directory) (tid : Int) (fullname : Option String)
    (status : Option String) (now : Int) : Directory × Bool :=
  if fullname.isNone && status.isNone then (d, false)
  else
    (d.map (fun r =>
        if r.telegram_id == tid then
          { r with fullname := fullname.getD r.fullname
                 , status := status.getD r.status
                 , updated_at := now }
        else r),
     d.any (fun r => r.telegram_id == tid))

/-- `Database.get_all_users` (database.py lines 147-160): full scan. -/
def get_all_users (d : Directory) : List User := d

/-- `Database.get_users_by_status` (database.py lines 177-190). -/
def get_users_by_status (d : Directory) (s : String) : List User :=
  d.filter (fun r => r.status == s)

/-- `Database.get_users_count` (database.py lines 166-175). -/
def get_users_count (d : Directory) : Nat := d.length

/-! ### Conversation states (bot.py line 43, admin.py line 12) -/

/-- Regular-user funnel states, `range(4)` in bot.py line 43. -/
inductive UserState
  | MAIN_MENU | CHECKING_SUBSCRIPTION | SENDING_ID | GENERATING_CODE
deriving DecidableEq, Repr

/-- Admin-track states, an independent `range(4)` in admin.py line 12, with
`ENDED` standing for the `-1` / `ConversationHandler.END` sentinel. -/
inductive AdminState
  | ADMIN_MENU | SENDING_MESSAGE | CONFIRMING_MESSAGE | VIEWING_STATS | ENDED
deriving DecidableEq, Repr

/-- A conversation state tagged by track, so that the two independently
numbered Python enums cannot be confused. -/
inductive ConvState
  | userTrack (s : UserState)
  | adminTrack (s : AdminState)
deriving DecidableEq, Repr

/-- `is_admin` (admin.py lines 26-28): membership of the sender id in the
configured `admin_ids` list. -/
def is_admin (adminIds : List Int) (uid : Int) : Bool :=
  adminIds.contains uid

/-! ### Captured broadcast message (admin.py lines 134-231) -/

/-- The content kinds the broadcast loop can dispatch, in the order the
`if`/`elif` chain of `confirm_and_send_message` tests them. -/
inductive Kind
  | text | photo | video | document | audio | animationClip | voice
  | videoNote | sticker | location | contact | venue | poll | dice | game
deriving DecidableEq, Repr

/-- A Telegram message as the broadcast code observes it: one flag per
attribute whose truthiness the `if`/`elif` chain and the capture filters test
(`message.text`, `message.photo`, ...).  Payload details (file ids, captions,
coordinates) are irrelevant to the claims and omitted. -/
structure Message where
  text : Bool
  photo : Bool
  video : Bool
  document : Bool
  audio : Bool
  animationClip : Bool
  voice : Bool
  videoNote : Bool
  sticker : Bool
  location : Bool
  contact : Bool
  venue : Bool
  poll : Bool
  dice : Bool
  game : Bool
deriving DecidableEq, Repr

/-- The content kind the `if`/`elif` chain of `confirm_and_send_message`
(admin.py lines 137-227) selects: the first truthy attribute in source order,
or `none` when the chain falls through to the `else` branch of line 228. -/
def Message.firstKind (m : Message) : Option Kind :=
  if m.text then some .text
  else if m.photo then some .photo
  else if m.video then some .video
  else if m.document then some .document
  else if m.audio then some .audio
  else if m.animationClip then some .animationClip
  else if m.voice then some .voice
  else if m.videoNote then some .videoNote
  else if m.sticker then some .sticker
  else if m.location then some .location
  else if m.contact then some .contact
  else if m.venue then some .venue
  else if m.poll then some .poll
  else if m.dice then some .dice
  else if m.game then some .game
  else none

/-- The `MessageHandler` filter guarding `admin_message_input` in the
`SENDING_MESSAGE` state (bot.py lines 453-459):
`TEXT | PHOTO | VIDEO | AUDIO | ANIMATION | VOICE | VIDEO_NOTE | LOCATION |
CONTACT | VENUE | POLL | GAME`.  The `~COMMAND` conjunct is reflected in the
event model: command updates are a separate event, not a `msgInput`. -/
def sendingMessageFilterMatches (m : Message) : Bool :=
  m.text || m.photo || m.video || m.audio || m.animationClip || m.voice ||
  m.videoNote || m.location || m.contact || m.venue || m.poll || m.game

/-! ### Broadcast fan-out (admin.py lines 101-257) -/

/-- Running totals of the fan-out loop, together with the list of
`(recipient, kind)` pairs for which a send primitive was actually invoked
(in loop order).  An invocation that raises still appears in `attempts`;
the unsupported-content `else` branch invokes nothing. -/
structure SendTally where
  success : Nat
  failed : Nat
  attempts : List (Int × Kind)
deriving DecidableEq, Repr

/-- One iteration of the `for user in all_users` loop (admin.py lines
134-236): dispatch on the first truthy content attribute; a raised exception
from the send primitive (modelled by the oracle `ok` returning `false`) is
caught, counted as a failure, and the loop continues; an unmatched content
kind takes the `else` branch (lines 228-231), counting a failure without
invoking any send primitive. -/
def sendStep (ok : Int → Bool) (m : Message) (t : SendTally) (uid : Int) :
    SendTally :=
  match m.firstKind with
  | some k =>
      if ok uid then
        { t with success := t.success + 1, attempts := t.attempts ++ [(uid, k)] }
      else
        { t with failed := t.failed + 1, attempts := t.attempts ++ [(uid, k)] }
  | none => { t with failed := t.failed + 1 }

/-- The whole sequential fan-out loop over the directory snapshot. -/
def broadcastLoop (ok : Int → Bool) (m : Message) (users : List User) :
    SendTally :=
  users.foldl (fun t u => sendStep ok m t u.telegram_id) ⟨0, 0, []⟩

/-- What `confirm_and_send_message` shows the admin: the permission alert
(line 109), the missing-payload notice (line 115), the empty-directory notice
(line 122), or the completion summary with its three numbers (lines 239-245). -/
inductive ConfirmOutcome
  | permissionAlert
  | noMessageNotice
  | noUsersNotice
  | summary (success failed total : Nat)
deriving DecidableEq, Repr

/-- `confirm_and_send_message` (admin.py lines 101-257).  Inputs: whether the
sender is an admin, the session's captured `broadcast_message`, the directory,
and the per-recipient success oracle.  Output: the outcome shown, the tally of
the loop (empty when the loop never ran), and the returned conversation
state — `ADMIN_MENU` on every path. -/
def confirm_and_send_message (adm : Bool) (sess : Option Message)
    (d : Directory) (ok : Int → Bool) :
    ConfirmOutcome × SendTally × AdminState :=
  if !adm then (.permissionAlert, ⟨0, 0, []⟩, .ADMIN_MENU)
  else
    match sess with
    | none => (.noMessageNotice, ⟨0, 0, []⟩, .ADMIN_MENU)
    | some m =>
        let users := get_all_users d
        if users.isEmpty then (.noUsersNotice, ⟨0, 0, []⟩, .ADMIN_MENU)
        else
          let t := broadcastLoop ok m users
          (.summary t.success t.failed users.length, t, .ADMIN_MENU)

/-! ### Admin-track handlers and dispatch (admin.py, bot.py lines 444-472) -/

/-- `admin_send_message_start` (admin.py lines 54-71): returns the next state
and whether a permission notice was shown. -/
def admin_send_message_start (adm : Bool) : AdminState × Bool :=
  if adm then (.SENDING_MESSAGE, false) else (.ADMIN_MENU, true)

/-- `admin_message_input` (admin.py lines 74-98): a non-admin gets a
permission reply and the handler returns `SENDING_MESSAGE`; an admin has the
inbound message stored as `user_data['broadcast_message']` and the handler
returns `CONFIRMING_MESSAGE`.  Result: next state, permission-notice flag,
resulting session slot. -/
def admin_message_input (adm : Bool) (sess : Option Message) (m : Message) :
    AdminState × Bool × Option Message :=
  if adm then (.CONFIRMING_MESSAGE, false, some m)
  else (.SENDING_MESSAGE, true, sess)

/-! ### Statistics (admin.py lines 260-324) -/

/-- The floored whole-day difference `(now - created).days` computed by
`admin_view_stats` (admin.py lines 293-303): Python `timedelta.days` is the
floor of the signed duration in days, hence `Int.fdiv` by 86400 seconds. -/
def tdDays (now created : Int) : Int :=
  (now - created).fdiv 86400

/-- The four join-date counters of `admin_view_stats` (admin.py lines
294-303).  The `u.created_at and` truthiness guard of the source is always
true here because the schema declares `created_at` NOT NULL and the
constructor always fills it with a non-empty ISO string. -/
structure JoinStats where
  today : Nat
  week : Nat
  todayChannel : Nat
  weekChannel : Nat
deriving DecidableEq, Repr

/-- The join-date aggregation of `admin_view_stats` (admin.py lines 291-303):
`days == 0` for the two today counters, `days <= 7` for the two week
counters, the channel variants restricted to status `channel_joined`. -/
def joinStats (now : Int) (users : List User) : JoinStats :=
  { today := users.countP (fun u => tdDays now u.created_at == 0)
  , week := users.countP (fun u => decide (tdDays now u.created_at ≤ 7))
  , todayChannel := users.countP
      (fun u => u.status == "channel_joined" && tdDays now u.created_at == 0)
  , weekChannel := users.countP
      (fun u => u.status == "channel_joined" &&
        decide (tdDays now u.created_at ≤ 7)) }

/-- The numbers `admin_view_stats` (admin.py lines 260-311) renders: the four
status counters and, only when the directory is non-empty (the
`if all_users:` guard of line 291), the join-date block. -/
structure StatsReport where
  total : Nat
  active : Nat
  idVerified : Nat
  channelJoined : Nat
  joins : Option JoinStats
deriving DecidableEq, Repr

/-- `admin_view_stats` (admin.py lines 260-324): next state, permission-notice
flag, and the report computed for an admin. -/
def admin_view_stats (adm : Bool) (d : Directory) (now : Int) :
    AdminState × Bool × Option StatsReport :=
  if adm then
    (.VIEWING_STATS, false, some
      { total := get_users_count d
      , active := (get_users_by_status d "active").length
      , idVerified := (get_users_by_status d "id_verified").length
      , channelJoined := (get_users_by_status d "channel_joined").length
      , joins := if d.isEmpty then none else some (joinStats now d) })
  else (.ADMIN_MENU, true, none)

/-- Modelled from the spec claim for comparison, not from the source: two
instants fall in the same wall-clock calendar day when flooring each to its
own day yields the same day number.  Used only to compare the source's
floored-difference windows against the wall-clock-day reading C6 asserts. -/
def sameCalendarDay (t u : Int) : Bool :=
  t.fdiv 86400 == u.fdiv 86400

/-! ### Admin conversation dispatch (bot.py lines 444-472) -/

/-- The inbound events the admin `ConversationHandler` distinguishes: the
four `CallbackQueryHandler` routing tokens of `ADMIN_MENU`, the two of
`CONFIRMING_MESSAGE`, a non-command inbound message, and the `/cancel`
command. -/
inductive AdminEvent
  | cbSendMessage
  | cbViewStats
  | cbBackToPanel
  | cbClose
  | cbConfirmSend
  | cbCancelSend
  | msgInput
  | cmdCancel
deriving DecidableEq, Repr

/-- Everything one dispatched admin event produces that the claims observe:
the next conversation state, whether a permission notice was emitted, the
session's broadcast slot afterwards, and the fan-out tally (empty off the
broadcast path). -/
structure StepResult where
  nextState : AdminState
  permissionNotice : Bool
  sess : Option Message
  tally : SendTally
deriving DecidableEq, Repr

/-- The admin `ConversationHandler` states table (bot.py lines 444-472),
dispatching one event arriving while the conversation is in state `st`.
Handlers present per state are exactly those wired in the source;
`admin_back_to_panel`, `admin_cancel_send` and `admin_close` (admin.py lines
327-371) perform no admin check and return `ADMIN_MENU` respectively `-1`.
A `/cancel` arriving in a state whose handlers do not consume it reaches the
`cancel` fallback (bot.py lines 354-360, 471) and ends the conversation.
An event no handler matches (for example a `msgInput` the `SENDING_MESSAGE`
filter rejects) is left unhandled: the state and session are unchanged. -/
def adminStep (adm : Bool) (st : AdminState) (ev : AdminEvent)
    (sess : Option Message) (d : Directory) (ok : Int → Bool) (m : Message)
    (now : Int) : StepResult :=
  match st, ev with
  | .ADMIN_MENU, .cbSendMessage =>
      let r := admin_send_message_start adm
      { nextState := r.1, permissionNotice := r.2, sess := sess, tally := ⟨0, 0, []⟩ }
  | .ADMIN_MENU, .cbViewStats =>
      let r := admin_view_stats adm d now
      { nextState := r.1, permissionNotice := r.2.1, sess := sess, tally := ⟨0, 0, []⟩ }
  | .ADMIN_MENU, .cbBackToPanel =>
      { nextState := .ADMIN_MENU, permissionNotice := false, sess := sess, tally := ⟨0, 0, []⟩ }
  | .ADMIN_MENU, .cbClose =>
      { nextState := .ENDED, permissionNotice := false, sess := sess, tally := ⟨0, 0, []⟩ }
  | .SENDING_MESSAGE, .msgInput =>
      if sendingMessageFilterMatches m then
        let r := admin_message_input adm sess m
        { nextState := r.1, permissionNotice := r.2.1, sess := r.2.2, tally := ⟨0, 0, []⟩ }
      else
        { nextState := st, permissionNotice := false, sess := sess, tally := ⟨0, 0, []⟩ }
  | .SENDING_MESSAGE, .cmdCancel =>
      { nextState := .ADMIN_MENU, permissionNotice := false, sess := sess, tally := ⟨0, 0, []⟩ }
  | .CONFIRMING_MESSAGE, .cbConfirmSend =>
      let r := confirm_and_send_message adm sess d ok
      { nextState := r.2.2, permissionNotice := r.1 == .permissionAlert
      , sess := sess, tally := r.2.1 }
  | .CONFIRMING_MESSAGE, .cbCancelSend =>
      { nextState := .ADMIN_MENU, permissionNotice := false, sess := sess, tally := ⟨0, 0, []⟩ }
  | .VIEWING_STATS, .cbBackToPanel =>
      { nextState := .ADMIN_MENU, permissionNotice := false, sess := sess, tally := ⟨0, 0, []⟩ }
  | .VIEWING_STATS, .cbClose =>
      { nextState := .ENDED, permissionNotice := false, sess := sess, tally := ⟨0, 0, []⟩ }
  | _, .cmdCancel =>
      { nextState := .ENDED, permissionNotice := false, sess := sess, tally := ⟨0, 0, []⟩ }
  | _, _ =>
      { nextState := st, permissionNotice := false, sess := sess, tally := ⟨0, 0, []⟩ }

/-! ### Identifier validation and the regular-user funnel (src/bot.py) -/

/-- Models CPython's per-character test behind `str.isdigit`: true for
characters of Unicode category Nd (decimal digits) and for characters with
`Numeric_Type=Digit`.  This is deliberately wider than ASCII `0`-`9`: the
table below lists the ASCII digits together with the superscript and
subscript digits and the main BMP decimal-digit blocks; every character any
claim exercises lies in these ranges. -/
def pyIsDigitChar (c : Char) : Bool :=
  let n := c.toNat
  (0x30 ≤ n && n ≤ 0x39) ||          -- ASCII 0-9
  n == 0xB2 || n == 0xB3 || n == 0xB9 ||   -- superscript 2, 3, 1
  (0x660 ≤ n && n ≤ 0x669) ||        -- Arabic-Indic
  (0x6F0 ≤ n && n ≤ 0x6F9) ||        -- Extended Arabic-Indic
  (0x966 ≤ n && n ≤ 0x96F) ||        -- Devanagari
  (0x9E6 ≤ n && n ≤ 0x9EF) ||        -- Bengali
  (0xA66 ≤ n && n ≤ 0xA6F) ||        -- Gurmukhi
  (0xAE6 ≤ n && n ≤ 0xAEF) ||        -- Gujarati
  (0xB66 ≤ n && n ≤ 0xB6F) ||        -- Oriya
  (0xBE6 ≤ n && n ≤ 0xBEF) ||        -- Tamil
  (0xC66 ≤ n && n ≤ 0xC6F) ||        -- Telugu
  (0xCE6 ≤ n && n ≤ 0xCEF) ||        -- Kannada
  (0xD66 ≤ n && n ≤ 0xD6F) ||        -- Malayalam
  (0xE50 ≤ n && n ≤ 0xE59) ||        -- Thai
  (0xED0 ≤ n && n ≤ 0xED9) ||        -- Lao
  (0xF20 ≤ n && n ≤ 0xF29) ||        -- Tibetan
  (0x1040 ≤ n && n ≤ 0x1049) ||      -- Myanmar
  (0x17E0 ≤ n && n ≤ 0x17E9) ||      -- Khmer
  (0x2070 ≤ n && n ≤ 0x2079) ||      -- superscripts
  (0x2080 ≤ n && n ≤ 0x2089) ||      -- subscripts
  (0xFF10 ≤ n && n ≤ 0xFF19)         -- fullwidth digits

/-- Python `str.isdigit`: at least one character and every character a
Unicode digit per `pyIsDigitChar`. -/
def pyIsDigit (s : String) : Bool :=
  !s.isEmpty && s.data.all pyIsDigitChar

/-- The replies `send_id_message` can emit. -/
inductive IdReply
  | backToApps
  | invalidId
  | congrats
deriving DecidableEq, Repr

/-- `send_id_message` (bot.py lines 267-307), the `SENDING_ID` text handler:
the back label returns to the catalog; otherwise
`len(text) != 10 or not text.isdigit()` re-prompts in place; otherwise the
sender's directory record is updated to status `id_verified` and the state
becomes `GENERATING_CODE`.  Inputs: directory, sender id, message text, the
configured back label, the current time; outputs: new directory, next state,
reply. -/
def send_id_message (d : Directory) (uid : Int) (text back : String)
    (now : Int) : Directory × UserState × IdReply :=
  if text == back then (d, .CHECKING_SUBSCRIPTION, .backToApps)
  else if text.length != 10 || !pyIsDigit text then
    (d, .SENDING_ID, .invalidId)
  else
    ((update_user d uid none (some "id_verified") now).1,
     .GENERATING_CODE, .congrats)

/-- The prompt `start` ends with. -/
inductive StartReply
  | adminPanelMenu
  | channelListPrompt
deriving DecidableEq, Repr

/-- `start` (bot.py lines 163-190): an admin sender is handed to
`admin_panel` (which, the sender being an admin, shows the menu and returns
`ADMIN_MENU`); otherwise the sender is created with status `active` and
fullname `user.full_name or "Unknown"` on first contact, or updated in place
with only the fullname on later sightings, and the channel-list prompt is
sent with state `MAIN_MENU`. -/
def start (adminIds : List Int) (d : Directory) (uid : Int)
    (full_name : String) (now : Int) : Directory × ConvState × StartReply :=
  if is_admin adminIds uid then
    (d, .adminTrack .ADMIN_MENU, .adminPanelMenu)
  else if !user_exists d uid then
    ((create_user d (pyUser uid
        (if full_name.isEmpty then "Unknown" else full_name) "active" now)).1,
     .userTrack .MAIN_MENU, .channelListPrompt)
  else
    ((update_user d uid (some full_name) none now).1,
     .userTrack .MAIN_MENU, .channelListPrompt)

/-! ### Helper lemmas about the fan-out loop -/

/-- Unfolding the fan-out loop when the captured message has a supported
content kind: every recipient gets exactly one dispatched attempt, the
successes are those the oracle accepts, the failures the rest. -/
theorem sendFold_supported (ok : Int → Bool) (m : Message) (k : Kind)
    (hm : m.firstKind = some k) (users : List User) (t : SendTally) :
    users.foldl (fun t u => sendStep ok m t u.telegram_id) t =
      { success := t.success + users.countP (fun u => ok u.telegram_id)
      , failed := t.failed + users.countP (fun u => !ok u.telegram_id)
      , attempts := t.attempts ++ users.map (fun u => (u.telegram_id, k)) } := by
  induction users generalizing t with
  | nil => simp
  | cons u us ih =>
      rw [List.foldl_cons, ih]
      by_cases h : ok u.telegram_id <;>
        simp [sendStep, hm, h, List.countP_cons, SendTally.mk.injEq] <;>
        omega

/-- Unfolding the fan-out loop when the captured message matches none of the
content kinds: no attempt is dispatched and every recipient is a failure. -/
theorem sendFold_unsupported (ok : Int → Bool) (m : Message)
    (hm : m.firstKind = none) (users : List User) (t : SendTally) :
    users.foldl (fun t u => sendStep ok m t u.telegram_id) t =
      { success := t.success, failed := t.failed + users.length
      , attempts := t.attempts } := by
  induction users generalizing t with
  | nil => simp
  | cons u us ih =>
      rw [List.foldl_cons, ih]
      simp [sendStep, hm, SendTally.mk.injEq]
      omega

/-- Splitting a recipient list into oracle-accepted and oracle-rejected
recipients accounts for every entry. -/
theorem countP_ok_add_countP_not (ok : Int → Bool) (d : List User) :
    d.countP (fun u => ok u.telegram_id) +
      d.countP (fun u => !ok u.telegram_id) = d.length := by
  induction d with
  | nil => rfl
  | cons u us ih =>
      by_cases h : ok u.telegram_id <;> simp [List.countP_cons, h] <;> omega

/-! ### Concrete data for witnesses -/

/-- A directory of three users with ids 1, 2, 3. -/
def w3Users : Directory :=
  [pyUser 1 "A" "active" 0, pyUser 2 "B" "active" 0, pyUser 3 "C" "active" 0]

/-- A send oracle that fails exactly for recipient id 2. -/
def wOkNot2 : Int → Bool := fun i => !(i == 2)

/-- A captured plain-text message. -/
def textMsg : Message :=
  { text := true, photo := false, video := false, document := false
  , audio := false, animationClip := false, voice := false, videoNote := false
  , sticker := false, location := false, contact := false, venue := false
  , poll := false, dice := false, game := false }

/-- A captured message none of whose content attributes is set. -/
def noneMsg : Message := { textMsg with text := false }

/-- A captured message whose only content attribute is a document. -/
def docMsg : Message := { noneMsg with document := true }

/-! ### C1 -/

/-- C1: over a snapshot of N directory users with a supported captured
payload, the fan-out dispatches exactly one send attempt per recipient in
snapshot order (one recipient's failure never terminates the batch), and the
completion summary reports success = N - K, failure = K, total = N, where K
is the number of recipients whose send fails. -/
theorem C1_fanout_counts (m : Message) (k : Kind) (hm : m.firstKind = some k)
    (d : Directory) (ok : Int → Bool) (hne : d ≠ []) :
    confirm_and_send_message true (some m) d ok =
      (.summary (d.length - (d.filter (fun u => !ok u.telegram_id)).length)
        ((d.filter (fun u => !ok u.telegram_id)).length) d.length,
       { success := d.length - (d.filter (fun u => !ok u.telegram_id)).length
       , failed := (d.filter (fun u => !ok u.telegram_id)).length
       , attempts := d.map (fun u => (u.telegram_id, k)) },
       .ADMIN_MENU) := by
  have hie : d.isEmpty = false := List.isEmpty_eq_false.mpr hne
  have hK := List.countP_eq_length_filter (p := fun u => !ok u.telegram_id) d
  have hsum := countP_ok_add_countP_not ok d
  have hok : d.countP (fun u => ok u.telegram_id) =
      d.length - (d.filter (fun u => !ok u.telegram_id)).length := by omega
  simp [confirm_and_send_message, broadcastLoop, get_all_users, hie,
    sendFold_supported ok m k hm, hok, hK]

/-- Witness for C1: three recipients, the send to id 2 engineered to fail:
the summary reports 2 successes, 1 failure, 3 total, and all three recipients
were attempted in order. -/
theorem C1_witness :
    confirm_and_send_message true (some textMsg) w3Users wOkNot2 =
      (.summary 2 1 3, ⟨2, 1, [(1, .text), (2, .text), (3, .text)]⟩,
       .ADMIN_MENU) :=
  (C1_fanout_counts textMsg .text rfl w3Users wOkNot2 (by decide)).trans
    (by decide)

/-! ### C3 -/

/-- C3: when the captured payload matches none of the supported content
kinds, the fan-out invokes no send primitive for any recipient, counts every
recipient as a failure, reports success = 0 and failure = N, and still
finishes the batch, returning to the admin menu. -/
theorem C3_unsupported_all_fail (m : Message) (hm : m.firstKind = none)
    (d : Directory) (ok : Int → Bool) (hne : d ≠ []) :
    confirm_and_send_message true (some m) d ok =
      (.summary 0 d.length d.length, ⟨0, d.length, []⟩, .ADMIN_MENU) := by
  have hie : d.isEmpty = false := List.isEmpty_eq_false.mpr hne
  simp [confirm_and_send_message, broadcastLoop, get_all_users, hie,
    sendFold_unsupported ok m hm]

/-- Witness for C3: an attribute-less captured message over the three-user
snapshot yields no attempts, 0 successes and 3 failures. -/
theorem C3_witness :
    confirm_and_send_message true (some noneMsg) w3Users wOkNot2 =
      (.summary 0 3 3, ⟨0, 3, []⟩, .ADMIN_MENU) :=
  (C3_unsupported_all_fail noneMsg rfl w3Users wOkNot2 (by decide)).trans
    (by decide)

/-! ### C10 -/

/-- C10: at confirmation time, a missing captured payload or an empty
directory snapshot produces zero send attempts, a notice instead of the
success/failure/total summary, and a return to the admin menu. -/
theorem C10_no_payload_or_empty (sess : Option Message) (d : Directory)
    (ok : Int → Bool) (h : sess = none ∨ d = []) :
    confirm_and_send_message true sess d ok =
      (.noMessageNotice, ⟨0, 0, []⟩, .ADMIN_MENU) ∨
    confirm_and_send_message true sess d ok =
      (.noUsersNotice, ⟨0, 0, []⟩, .ADMIN_MENU) := by
  rcases h with h | h
  · subst h; left; rfl
  · subst h
    cases sess with
    | none => left; rfl
    | some m => right; rfl

/-- Witness for C10: no captured payload over a non-empty snapshot. -/
theorem C10_witness :
    confirm_and_send_message true none w3Users wOkNot2 =
      (.noMessageNotice, ⟨0, 0, []⟩, .ADMIN_MENU) ∨
    confirm_and_send_message true none w3Users wOkNot2 =
      (.noUsersNotice, ⟨0, 0, []⟩, .ADMIN_MENU) :=
  C10_no_payload_or_empty none w3Users wOkNot2 (Or.inl rfl)

/-! ### C4 -/

/-- C4 counterexample: a non-admin message arriving in `SENDING_MESSAGE` does
get the permission reply, but `admin_message_input` returns
`SENDING_MESSAGE`, not `ADMIN_MENU` — the state is not forced back to the
admin menu as the claim requires. -/
theorem C4_counterexample :
    (adminStep false .SENDING_MESSAGE .msgInput none [] (fun _ => true)
        textMsg 0).nextState = .SENDING_MESSAGE ∧
    (adminStep false .SENDING_MESSAGE .msgInput none [] (fun _ => true)
        textMsg 0).permissionNotice = true ∧
    AdminState.SENDING_MESSAGE ≠ AdminState.ADMIN_MENU :=
  ⟨rfl, rfl, by decide⟩

/-- C4 amended: for every event dispatched in an admin-track state with a
non-admin sender, no broadcast send is dispatched, the session is not
touched, and a conversation not already in `CONFIRMING_MESSAGE` never enters
it; the four action handlers (broadcast start, stats, confirm-and-send,
message capture) do reply with a permission notice, the first three forcing
`ADMIN_MENU` while the message-capture handler stays in `SENDING_MESSAGE`;
the navigation handlers (back-to-panel, cancel-send, close) perform no admin
check. -/
theorem C4_amended (st : AdminState) (ev : AdminEvent) (sess : Option Message)
    (d : Directory) (ok : Int → Bool) (m : Message) (now : Int) :
    (adminStep false st ev sess d ok m now).tally = ⟨0, 0, []⟩ ∧
    (adminStep false st ev sess d ok m now).sess = sess ∧
    (st ≠ .CONFIRMING_MESSAGE →
      (adminStep false st ev sess d ok m now).nextState ≠ .CONFIRMING_MESSAGE) ∧
    (st = .ADMIN_MENU → (ev = .cbSendMessage ∨ ev = .cbViewStats) →
      (adminStep false st ev sess d ok m now).permissionNotice = true ∧
      (adminStep false st ev sess d ok m now).nextState = .ADMIN_MENU) ∧
    (st = .CONFIRMING_MESSAGE → ev = .cbConfirmSend →
      (adminStep false st ev sess d ok m now).permissionNotice = true ∧
      (adminStep false st ev sess d ok m now).nextState = .ADMIN_MENU) ∧
    (st = .SENDING_MESSAGE → ev = .msgInput →
      sendingMessageFilterMatches m = true →
      (adminStep false st ev sess d ok m now).permissionNotice = true ∧
      (adminStep false st ev sess d ok m now).nextState = .SENDING_MESSAGE) := by
  cases st <;> cases ev <;>
    simp [adminStep, admin_send_message_start, admin_view_stats,
      admin_message_input, confirm_and_send_message] <;>
    (try (split <;> simp_all))

/-- Witness for C4 amended: a non-admin pressing the broadcast button in the
admin menu gets the permission notice and stays in the menu, and a non-admin
message in `SENDING_MESSAGE` does not reach `CONFIRMING_MESSAGE`. -/
theorem C4_amended_witness :
    (adminStep false .ADMIN_MENU .cbSendMessage none [] (fun _ => true)
        textMsg 0).permissionNotice = true ∧
    (adminStep false .ADMIN_MENU .cbSendMessage none [] (fun _ => true)
        textMsg 0).nextState = .ADMIN_MENU ∧
    (adminStep false .SENDING_MESSAGE .msgInput none [] (fun _ => true)
        textMsg 0).nextState ≠ .CONFIRMING_MESSAGE :=
  ⟨((C4_amended .ADMIN_MENU .cbSendMessage none [] (fun _ => true) textMsg
      0).2.2.2.1 rfl (Or.inl rfl)).1,
   ((C4_amended .ADMIN_MENU .cbSendMessage none [] (fun _ => true) textMsg
      0).2.2.2.1 rfl (Or.inl rfl)).2,
   (C4_amended .SENDING_MESSAGE .msgInput none [] (fun _ => true) textMsg
      0).2.2.1 (by decide)⟩

/-! ### C5 -/

/-- A captured message whose only content attribute is a sticker. -/
def stickerMsg : Message := { noneMsg with sticker := true }

/-- A captured message whose only content attribute is a dice roll. -/
def diceMsg : Message := { noneMsg with dice := true }

/-- C5, evaluated at the failing inputs: document, sticker and dice messages
are supported by the broadcast dispatch chain (`firstKind` finds them), yet
the `SENDING_MESSAGE` capture filter of bot.py lines 453-459 omits
`filters.Document`, `filters.Sticker` and `filters.Dice`, so even for an
admin sender such a message is left unhandled — nothing is captured and the
conversation stays in `SENDING_MESSAGE` instead of moving to
`CONFIRMING_MESSAGE` as the claim (and the spec's transition table)
requires. -/
theorem C5_document_sticker_dice_not_captured :
    docMsg.firstKind = some .document ∧
    stickerMsg.firstKind = some .sticker ∧
    diceMsg.firstKind = some .dice ∧
    sendingMessageFilterMatches docMsg = false ∧
    sendingMessageFilterMatches stickerMsg = false ∧
    sendingMessageFilterMatches diceMsg = false ∧
    adminStep true .SENDING_MESSAGE .msgInput none [] (fun _ => true)
        docMsg 0 =
      { nextState := .SENDING_MESSAGE, permissionNotice := false
      , sess := none, tally := ⟨0, 0, []⟩ } ∧
    adminStep true .SENDING_MESSAGE .msgInput none [] (fun _ => true)
        textMsg 0 =
      { nextState := .CONFIRMING_MESSAGE, permissionNotice := false
      , sess := some textMsg, tally := ⟨0, 0, []⟩ } := by
  refine ⟨rfl, rfl, rfl, rfl, rfl, rfl, rfl, rfl⟩

/-! ### Lookup after update -/

/-- Point lookup after an update that provides at least one field: the first
record matching the id is the old record with the provided fields merged and
`updated_at` refreshed. -/
theorem get_user_update (d : Directory) (tid : Int) (fn so : Option String)
    (now : Int) (r : User) (hr : get_user d tid = some r)
    (hsome : (fn.isNone && so.isNone) = false) :
    get_user (update_user d tid fn so now).1 tid =
      some { r with
              fullname := fn.getD r.fullname,
              status := so.getD r.status,
              updated_at := now } := by
  induction d with
  | nil => simp [get_user] at hr
  | cons u us ih =>
      cases h : u.telegram_id == tid with
      | true =>
          have heq : u.telegram_id = tid := beq_iff_eq.mp h
          simp only [get_user, List.find?_cons, h] at hr
          injection hr with hr
          subst hr
          simp [update_user, hsome, get_user, List.find?_cons, h, heq]
      | false =>
          have hne : ¬u.telegram_id = tid := by
            intro hc
            simp [hc] at h
          simp only [get_user, List.find?_cons, h] at hr
          have htail := ih hr
          simp only [update_user, hsome, Bool.false_eq_true, if_false,
            List.map_cons, get_user, List.find?_cons, h, hne] at htail ⊢
          exact htail

/-! ### C2 -/

/-- A text of ten superscript-two characters: length 10, every character a
Unicode digit for Python `str.isdigit`, none of them an ASCII decimal
digit. -/
def supTwoText : String := "²²²²²²²²²²"

/-- The directory row the C2 counterexample starts from. -/
def cUser : User := pyUser 7 "C" "active" 0

/-- C2 counterexample: the claim requires that any `SENDING_ID` text that is
not solely ASCII decimal digits leaves the state at `SENDING_ID` with the
directory record unchanged; but `str.isdigit` accepts non-ASCII Unicode
digits, so ten superscript-two characters pass the check, the state moves to
`GENERATING_CODE`, and the record is rewritten. -/
theorem C2_counterexample :
    (send_id_message [cUser] 7 supTwoText "Back" 99).2.1 =
      UserState.GENERATING_CODE ∧
    (send_id_message [cUser] 7 supTwoText "Back" 99).1 ≠ [cUser] ∧
    supTwoText ≠ "Back" ∧
    supTwoText.length = 10 ∧
    supTwoText.data.all Char.isDigit = false := by
  decide

/-- C2 amended: in `SENDING_ID`, a text other than the back label moves to
`GENERATING_CODE` with the sender's status set to `id_verified` exactly when
it has length 10 and passes Python `str.isdigit` — which accepts every
Unicode digit character, with ASCII decimal digits only a special case — and
otherwise leaves the state at `SENDING_ID` with the directory untouched. -/
theorem C2_amended (d : Directory) (uid : Int) (text back : String)
    (now : Int) (hb : text ≠ back) :
    ((text.length = 10 ∧ pyIsDigit text = true) →
      send_id_message d uid text back now =
        ((update_user d uid none (some "id_verified") now).1,
         .GENERATING_CODE, .congrats)) ∧
    (¬(text.length = 10 ∧ pyIsDigit text = true) →
      send_id_message d uid text back now = (d, .SENDING_ID, .invalidId)) ∧
    (∀ r, get_user d uid = some r → text.length = 10 → pyIsDigit text = true →
      get_user (send_id_message d uid text back now).1 uid =
        some { r with status := "id_verified", updated_at := now }) := by
  have hbb : (text == back) = false := by
    simpa using hb
  refine ⟨?_, ?_, ?_⟩
  · rintro ⟨h1, h2⟩
    simp [send_id_message, hbb, h1, h2]
  · intro h
    by_cases h1 : text.length = 10
    · have h2 : pyIsDigit text = false := by
        cases hq : pyIsDigit text
        · rfl
        · exact absurd ⟨h1, hq⟩ h
      simp [send_id_message, hbb, h1, h2]
    · simp [send_id_message, hbb, h1]
  · intro r hr h1 h2
    simp only [send_id_message, hbb, Bool.false_eq_true, if_false, h1, h2,
      bne_self_eq_false, Bool.not_true, Bool.or_self]
    exact get_user_update d uid none (some "id_verified") now r hr rfl

/-- Witness for C2 amended: with user 5 in the directory, the ASCII text
`1234567890` verifies and rewrites the record, while `12a4567890`
re-prompts and leaves everything unchanged. -/
theorem C2_witness :
    send_id_message [pyUser 5 "W" "active" 0] 5 "1234567890" "Back" 50 =
      ([{ pyUser 5 "W" "active" 0 with
            status := "id_verified", updated_at := 50 }],
       .GENERATING_CODE, .congrats) ∧
    send_id_message [pyUser 5 "W" "active" 0] 5 "12a4567890" "Back" 50 =
      ([pyUser 5 "W" "active" 0], .SENDING_ID, .invalidId) :=
  ⟨((C2_amended [pyUser 5 "W" "active" 0] 5 "1234567890" "Back" 50
      (by decide)).1 (by decide)).trans (by decide),
   (C2_amended [pyUser 5 "W" "active" 0] 5 "12a4567890" "Back" 50
      (by decide)).2.1 (by decide)⟩

/-! ### C6 -/

/-- The `days == 0` test of the stats view holds exactly on a trailing
24-hour rolling window ending at `now`. -/
theorem tdDays_eq_zero_iff (now c : Int) :
    tdDays now c = 0 ↔ now - 86400 < c ∧ c ≤ now := by
  unfold tdDays
  rw [Int.fdiv_eq_ediv _ (by omega)]
  omega

/-- The `days <= 7` test of the stats view holds exactly when the creation
instant is later than eight days before `now` (with no upper bound). -/
theorem tdDays_le_seven_iff (now c : Int) :
    tdDays now c ≤ 7 ↔ now - 8 * 86400 < c := by
  unfold tdDays
  rw [Int.fdiv_eq_ediv _ (by omega)]
  omega

/-- A user created 23:50 into day 0, viewed at 00:10 into day 1. -/
def lateUser : User := pyUser 4 "L" "active" 85800

/-- C6 counterexample: the stats view counts `lateUser` as created "today"
at instant 87000 even though 85800 and 87000 fall in different wall-clock
calendar days — the `days == 0` test is a trailing 24-hour rolling window,
not a calendar-day boundary. -/
theorem C6_counterexample :
    (joinStats 87000 [lateUser]).today = 1 ∧
    sameCalendarDay 87000 lateUser.created_at = false := by
  decide

/-- C6 amended: the "today" counters of the stats view count exactly the
users created within the trailing 24 hours before `now`, and the "week"
counters exactly those created later than eight days before `now` (rolling
windows anchored at the viewing instant, not wall-clock day boundaries);
the channel counters are the same windows restricted to status
`channel_joined`. -/
theorem C6_amended (now : Int) (users : List User) :
    (joinStats now users).today =
      users.countP (fun u => decide (now - 86400 < u.created_at ∧
        u.created_at ≤ now)) ∧
    (joinStats now users).week =
      users.countP (fun u => decide (now - 8 * 86400 < u.created_at)) ∧
    (joinStats now users).todayChannel =
      users.countP (fun u => u.status == "channel_joined" &&
        decide (now - 86400 < u.created_at ∧ u.created_at ≤ now)) ∧
    (joinStats now users).weekChannel =
      users.countP (fun u => u.status == "channel_joined" &&
        decide (now - 8 * 86400 < u.created_at)) := by
  have ht : ∀ c : Int, (tdDays now c == 0) =
      decide (now - 86400 < c ∧ c ≤ now) := by
    intro c
    rw [Bool.beq_eq_decide_eq]
    exact decide_eq_decide.mpr (tdDays_eq_zero_iff now c)
  have hw : ∀ c : Int, decide (tdDays now c ≤ 7) =
      decide (now - 8 * 86400 < c) := by
    intro c
    exact decide_eq_decide.mpr (tdDays_le_seven_iff now c)
  simp only [joinStats, ht, hw]
  exact ⟨trivial, trivial, trivial, trivial⟩

/-! ### C7 -/

/-- C7: `update_user` with no fields is a no-op reporting failure; with an
absent id it reports failure and changes nothing; with the id present it
reports success, merges only the provided fields and refreshes `updated_at`;
and no update ever touches `created_at`, nor `fullname` when only the status
is provided. -/
theorem C7_update_semantics (d : Directory) (tid : Int) (now : Int) :
    update_user d tid none none now = (d, false) ∧
    (∀ fn so, user_exists d tid = false →
      update_user d tid fn so now = (d, false)) ∧
    (∀ s r, get_user d tid = some r →
      (update_user d tid none (some s) now).2 = true ∧
      get_user (update_user d tid none (some s) now).1 tid =
        some { r with status := s, updated_at := now }) ∧
    (∀ fn so (i : Nat),
      ((update_user d tid fn so now).1[i]?.map User.created_at) =
        (d[i]?.map User.created_at)) ∧
    (∀ so (i : Nat),
      ((update_user d tid none (some so) now).1[i]?.map User.fullname) =
        (d[i]?.map User.fullname)) := by
  refine ⟨by simp [update_user], ?_, ?_, ?_, ?_⟩
  · intro fn so h
    have hnone : get_user d tid = none := by
      cases hq : get_user d tid with
      | none => rfl
      | some r => simp [user_exists, hq] at h
    have hall : ∀ x ∈ d, ¬((x.telegram_id == tid) = true) :=
      List.find?_eq_none.mp hnone
    by_cases hc : (fn.isNone && so.isNone) = true
    · simp [update_user, hc]
    · have hc' : (fn.isNone && so.isNone) = false := by
        cases hq : fn.isNone && so.isNone
        · rfl
        · exact absurd hq hc
      simp only [update_user, hc', Bool.false_eq_true, if_false,
        Prod.mk.injEq]
      constructor
      · have hid : d.map (fun r =>
            if r.telegram_id == tid then
              { r with fullname := fn.getD r.fullname,
                       status := so.getD r.status, updated_at := now }
            else r) = d.map id := by
          apply List.map_congr_left
          intro a ha
          have hfa : (a.telegram_id == tid) = false := by
            simpa using hall a ha
          simp [hfa]
        simpa using hid
      · rw [List.any_eq_false]
        exact hall
  · intro s r hr
    have hmem := List.mem_of_find?_eq_some hr
    have hp := List.find?_some hr
    constructor
    · show (update_user d tid none (some s) now).2 = true
      simp only [update_user, Option.isNone_none, Option.isNone_some,
        Bool.and_false, Bool.false_eq_true, if_false]
      rw [List.any_eq_true]
      exact ⟨r, hmem, hp⟩
    · exact get_user_update d tid none (some s) now r hr rfl
  · intro fn so i
    by_cases hc : (fn.isNone && so.isNone) = true
    · simp [update_user, hc]
    · have hc' : (fn.isNone && so.isNone) = false := by
        cases hq : fn.isNone && so.isNone
        · rfl
        · exact absurd hq hc
      simp only [update_user, hc', Bool.false_eq_true, if_false,
        List.getElem?_map, Option.map_map]
      cases d[i]? with
      | none => rfl
      | some u =>
          simp [Function.comp]
          split <;> rfl
  · intro so i
    simp only [update_user, Option.isNone_none, Option.isNone_some,
      Bool.and_false, Bool.false_eq_true, if_false, List.getElem?_map,
      Option.map_map]
    cases d[i]? with
    | none => rfl
    | some u =>
        simp [Function.comp]
        split <;> rfl

/-- Witness for C7: updating an absent id fails and changes nothing;
updating only the status of the present user 3 succeeds, sets the status,
refreshes `updated_at` and keeps the fullname and creation time. -/
theorem C7_witness :
    update_user [pyUser 3 "Full" "active" 0] 9 (some "X") (some "chg") 5 =
      ([pyUser 3 "Full" "active" 0], false) ∧
    (update_user [pyUser 3 "Full" "active" 0] 3 none
      (some "id_verified") 5).2 = true ∧
    get_user (update_user [pyUser 3 "Full" "active" 0] 3 none
        (some "id_verified") 5).1 3 =
      some { pyUser 3 "Full" "active" 0 with
              status := "id_verified", updated_at := 5 } := by
  have h1 := (C7_update_semantics [pyUser 3 "Full" "active" 0] 9 5).2.1
    (some "X") (some "chg") (by decide)
  have h2 := (C7_update_semantics [pyUser 3 "Full" "active" 0] 3 5).2.2.1
    "id_verified" (pyUser 3 "Full" "active" 0) (by decide)
  exact ⟨h1, h2.1, h2.2⟩

/-! ### C8 -/

/-- C8: with the id absent, the first `create_user` succeeds and persists the
record with both timestamps set to now; a second create with the same id
reports failure and leaves the directory unchanged, so exactly one record
with that id remains. -/
theorem C8_create_then_duplicate (d : Directory) (tid : Int)
    (n1 n2 s2 : String) (t1 t2 : Int) (h : user_exists d tid = false) :
    (create_user d (pyUser tid n1 "active" t1)).2 = true ∧
    (pyUser tid n1 "active" t1).created_at = t1 ∧
    (pyUser tid n1 "active" t1).updated_at = t1 ∧
    get_user (create_user d (pyUser tid n1 "active" t1)).1 tid =
      some (pyUser tid n1 "active" t1) ∧
    create_user (create_user d (pyUser tid n1 "active" t1)).1
        (pyUser tid n2 s2 t2) =
      ((create_user d (pyUser tid n1 "active" t1)).1, false) ∧
    ((create_user d (pyUser tid n1 "active" t1)).1.countP
        (fun r => r.telegram_id == tid)) = 1 := by
  have hnone : get_user d tid = none := by
    cases hq : get_user d tid with
    | none => rfl
    | some r => simp [user_exists, hq] at h
  have hall : ∀ x ∈ d, ¬((x.telegram_id == tid) = true) :=
    List.find?_eq_none.mp hnone
  have hany : d.any (fun r =>
      r.telegram_id == (pyUser tid n1 "active" t1).telegram_id) = false := by
    rw [List.any_eq_false]
    exact hall
  have hfirst : create_user d (pyUser tid n1 "active" t1) =
      (d ++ [pyUser tid n1 "active" t1], true) := by
    simp [create_user, hany]
  have hfd : List.find? (fun r => r.telegram_id == tid) d = none := hnone
  have hcz : d.countP (fun r => r.telegram_id == tid) = 0 :=
    List.countP_eq_zero.mpr hall
  rw [hfirst]
  refine ⟨rfl, rfl, rfl, ?_, ?_, ?_⟩
  · show List.find? (fun r => r.telegram_id == tid)
        (d ++ [pyUser tid n1 "active" t1]) = _
    rw [List.find?_append, hfd]
    simp [pyUser]
  · have hany2 : (d ++ [pyUser tid n1 "active" t1]).any (fun r =>
        r.telegram_id == (pyUser tid n2 s2 t2).telegram_id) = true := by
      rw [List.any_eq_true]
      exact ⟨pyUser tid n1 "active" t1, by simp, by simp [pyUser]⟩
    simp [create_user, hany2]
  · rw [List.countP_append, hcz]
    simp [pyUser]

/-- Witness for C8: creating id 42 in a one-user directory succeeds, the
duplicate create fails and changes nothing, and exactly one record with id
42 remains. -/
theorem C8_witness :
    get_user (create_user [pyUser 1 "A" "active" 0]
        (pyUser 42 "N" "active" 7)).1 42 = some (pyUser 42 "N" "active" 7) ∧
    create_user (create_user [pyUser 1 "A" "active" 0]
        (pyUser 42 "N" "active" 7)).1 (pyUser 42 "M" "other" 9) =
      ((create_user [pyUser 1 "A" "active" 0]
        (pyUser 42 "N" "active" 7)).1, false) ∧
    ((create_user [pyUser 1 "A" "active" 0]
        (pyUser 42 "N" "active" 7)).1.countP
        (fun r => r.telegram_id == 42)) = 1 := by
  have h := C8_create_then_duplicate [pyUser 1 "A" "active" 0] 42 "N" "M"
    "other" 7 9 (by decide)
  exact ⟨h.2.2.2.1, h.2.2.2.2.1, h.2.2.2.2.2⟩

/-! ### C9 -/

/-- A directory whose only record, id 555, has already progressed to status
`id_verified`. -/
def c9Dir : Directory :=
  [{ telegram_id := 555, fullname := "Old", status := "id_verified",
     created_at := 1, updated_at := 2 }]

/-- C9 counterexample: a returning non-admin sender whose record has status
`id_verified` sends `/start`; the handler only updates the fullname, so the
directory record keeps status `id_verified`, contradicting the claim that
the record is left with status `active`. -/
theorem C9_counterexample :
    (start [] c9Dir 555 "Old" 9).2.1 = ConvState.userTrack .MAIN_MENU ∧
    (get_user (start [] c9Dir 555 "Old" 9).1 555).map User.status =
      some "id_verified" ∧
    some "id_verified" ≠ (some "active" : Option String) := by
  decide

/-- C9 amended: for a non-admin sender, `/start` transitions to `MAIN_MENU`
with the channel-list prompt and leaves exactly one directory record for the
sender: on first contact a fresh record with status `active` and both
timestamps set to now, on later sightings the existing record with only the
fullname and `updated_at` refreshed — the previous status is kept, not reset
to `active`. -/
theorem C9_amended (adminIds : List Int) (d : Directory) (uid : Int)
    (name : String) (now : Int) (hadm : is_admin adminIds uid = false)
    (huniq : d.countP (fun r => r.telegram_id == uid) ≤ 1) :
    (start adminIds d uid name now).2.1 = ConvState.userTrack .MAIN_MENU ∧
    (start adminIds d uid name now).2.2 = .channelListPrompt ∧
    ((start adminIds d uid name now).1.countP
      (fun r => r.telegram_id == uid)) = 1 ∧
    (user_exists d uid = false →
      (start adminIds d uid name now).1 =
        d ++ [pyUser uid (if name.isEmpty then "Unknown" else name)
          "active" now]) ∧
    (∀ r, get_user d uid = some r →
      get_user (start adminIds d uid name now).1 uid =
        some { r with fullname := name, updated_at := now }) := by
  by_cases hex : user_exists d uid = true
  · obtain ⟨r0, hr0⟩ : ∃ r0, get_user d uid = some r0 := by
      cases hq : get_user d uid with
      | none => simp [user_exists, hq] at hex
      | some r0 => exact ⟨r0, rfl⟩
    have hstart : start adminIds d uid name now =
        ((update_user d uid (some name) none now).1,
         .userTrack .MAIN_MENU, .channelListPrompt) := by
      simp [start, hadm, hex]
    have hmem := List.mem_of_find?_eq_some hr0
    have hp := List.find?_some hr0
    have hpos : 0 < d.countP (fun r => r.telegram_id == uid) :=
      List.countP_pos_iff.mpr ⟨r0, hmem, hp⟩
    refine ⟨by rw [hstart], by rw [hstart], ?_, ?_, ?_⟩
    · rw [hstart]
      show ((update_user d uid (some name) none now).1.countP
        (fun r => r.telegram_id == uid)) = 1
      have hmap : (update_user d uid (some name) none now).1 =
          d.map (fun r =>
            if r.telegram_id == uid then
              { r with fullname := name, updated_at := now }
            else r) := by
        simp [update_user]
      rw [hmap, List.countP_map]
      have hcong : d.countP ((fun r => r.telegram_id == uid) ∘ fun r =>
          if r.telegram_id == uid then
            { r with fullname := name, updated_at := now }
          else r) = d.countP (fun r => r.telegram_id == uid) := by
        apply List.countP_congr
        intro x hx
        by_cases h : (x.telegram_id == uid) = true <;>
          simp [Function.comp, h]
      rw [hcong]
      omega
    · intro habs
      rw [hex] at habs
      exact absurd habs (by decide)
    · intro r hr
      rw [hstart]
      exact get_user_update d uid (some name) none now r hr rfl
  · have hex' : user_exists d uid = false := by
      cases hq : user_exists d uid
      · rfl
      · exact absurd hq hex
    have hnone : get_user d uid = none := by
      cases hq : get_user d uid with
      | none => rfl
      | some r => simp [user_exists, hq] at hex'
    have hall : ∀ x ∈ d, ¬((x.telegram_id == uid) = true) :=
      List.find?_eq_none.mp hnone
    have hany : d.any (fun r => r.telegram_id ==
        (pyUser uid (if name.isEmpty then "Unknown" else name)
          "active" now).telegram_id) = false := by
      rw [List.any_eq_false]
      exact hall
    have hstart : start adminIds d uid name now =
        (d ++ [pyUser uid (if name.isEmpty then "Unknown" else name)
          "active" now],
         .userTrack .MAIN_MENU, .channelListPrompt) := by
      simp [start, hadm, hex', create_user, hany]
    have hcz : d.countP (fun r => r.telegram_id == uid) = 0 :=
      List.countP_eq_zero.mpr hall
    refine ⟨by rw [hstart], by rw [hstart], ?_, ?_, ?_⟩
    · rw [hstart]
      simp [List.countP_append, hcz, pyUser]
    · intro _
      rw [hstart]
    · intro r hr
      rw [hnone] at hr
      exact absurd hr (by simp)

/-- Witness for C9 amended: a first `/start` from id 555 creates the
`active` record; a later `/start` against `c9Dir` only refreshes fullname
and `updated_at`, keeping status `id_verified`. -/
theorem C9_witness :
    (start [] [] 555 "New" 3).1 = [pyUser 555 "New" "active" 3] ∧
    get_user (start [] c9Dir 555 "New" 9).1 555 =
      some { telegram_id := 555, fullname := "New", status := "id_verified",
             created_at := 1, updated_at := 9 } := by
  have h1 := (C9_amended [] [] 555 "New" 3 (by decide) (by decide)).2.2.2.1
    (by decide)
  have h2 := (C9_amended [] c9Dir 555 "New" 9 (by decide)
    (by decide)).2.2.2.2
    { telegram_id := 555, fullname := "Old", status := "id_verified",
      created_at := 1, updated_at := 2 } (by decide)
  exact ⟨h1.trans (by decide), h2.trans (by decide)⟩

end Vigi
